import Mathlib

/-!
Verification of the NoteParser clinical decision-support pipeline.

This file gives a shallow embedding of the core pipeline of the repository:

* `backend/mcp_server/tools/parser.py` — clinical-note extraction
  (`ClinicalNoteParser`: demographics, vitals, symptoms, sections, `parse`);
* `backend/mcp_server/server.py` — `load_json_data`, `identify_condition`,
  `calculate_medication_dose`, `generate_treatment_plan`;
* `backend/mcp_server/tools/treatment_planner.py` — `TreatmentPlanGenerator`;
* `backend/mcp_server/utils/error_handler.py` — the check helpers
  (`check_condition_exists`, `check_medication_exists`, ...).

Python floats are modelled by `ℚ` (the arithmetic used — multiplication,
`min`, `max`, comparisons — is structure-preserving for the clamp
properties at issue), Python ints by `ℤ`/`ℕ`, dicts by association lists
(Python dicts iterate in insertion order and have unique keys; `List.lookup`
matches dict lookup for unique keys), and raised exceptions by `Except`.

The regular-expression patterns of `parser.py` are embedded as explicit
scanner functions.  `re.search` semantics (leftmost position, then the
pattern's own backtracking order at that position) are reproduced exactly;
for each pattern the relevant greedy/lazy/backtracking behaviour is worked
out in a comment next to its scanner.  `\d`, `\s` and `\w` are modelled by
their ASCII meaning and `str.lower` by ASCII lowering (all pattern literals
are ASCII).
-/

namespace NoteParser

/-! ## Character and string scanning utilities -/

/-- Case-insensitive character comparison, as produced by `re.IGNORECASE`
(ASCII lowering). -/
def lowEq (a b : Char) : Bool := a.toLower == b.toLower

/-- Python `\s` (ASCII part): space, tab, newline, carriage return,
vertical tab, form feed. -/
def isWS (c : Char) : Bool :=
  c == ' ' || c == '\t' || c == '\n' || c == '\r' || c == Char.ofNat 11 || c == Char.ofNat 12

/-- Greedy `\s*`: drop the maximal run of whitespace. -/
def dropWS : List Char → List Char
  | [] => []
  | c :: cs => if isWS c then dropWS cs else c :: cs

/-- Match a literal pattern case-insensitively at the head of the input;
return the rest of the input on success. -/
def litMatch : List Char → List Char → Option (List Char)
  | [], rest => some rest
  | _ :: _, [] => none
  | p :: ps, c :: cs => if lowEq p c then litMatch ps cs else none

/-- Greedy run of ASCII digits (`\d*`), returned verbatim with the rest. -/
def digitRun : List Char → List Char × List Char
  | [] => ([], [])
  | c :: cs =>
    if c.isDigit then
      let (ds, rest) := digitRun cs
      (c :: ds, rest)
    else ([], c :: cs)

/-- Greedy `\d+` (at least one digit). -/
def digits1 (cs : List Char) : Option (List Char × List Char) :=
  match digitRun cs with
  | ([], _) => none
  | (ds, rest) => some (ds, rest)

/-- Numeric value of a digit run, as `int(...)` would produce. -/
def natOfDigits (ds : List Char) : ℕ :=
  ds.foldl (fun acc c => 10 * acc + (c.toNat - 48)) 0

/-- Greedy `\d+\.?\d*` followed by `float(...)`.  Since every use in
`parser.py` is followed by `\s*` plus a letter literal (or a character
class disjoint from digits and dot), the greedy match never needs to
backtrack, so maximal munch is exact. -/
def ratNum (cs : List Char) : Option (ℚ × List Char) :=
  match digits1 cs with
  | none => none
  | some (ds, rest) =>
    match rest with
    | '.' :: rest2 =>
      let (fs, rest3) := digitRun rest2
      some (Rat.divInt (natOfDigits ds * 10 ^ fs.length + natOfDigits fs) (10 ^ fs.length),
        rest3)
    | _ => some (Rat.divInt (natOfDigits ds) 1, rest)

/-- The position scan of `re.search`: try the matcher at each suffix,
leftmost first. -/
def searchPos {α : Type} (f : List Char → Option α) : List Char → Option α
  | [] => f []
  | c :: cs =>
    match f (c :: cs) with
    | some a => some a
    | none => searchPos f cs

/-- Position scan that also tracks the previous character (needed for the
word-boundary `\b` in the gender pattern). -/
def searchPosB {α : Type} (f : Option Char → List Char → Option α) :
    Option Char → List Char → Option α
  | prev, [] => f prev []
  | prev, c :: cs =>
    match f prev (c :: cs) with
    | some a => some a
    | none => searchPosB f (some c) cs

/-- Case-sensitive substring containment, Python `needle in hay`. -/
def strContains (hay needle : String) : Bool :=
  (searchPos (fun cs => if needle.data.isPrefixOf cs then some () else none) hay.data).isSome

/-- Python `str.lower()` (ASCII lowering, see the header note). -/
def pyLower (s : String) : String := ⟨s.data.map Char.toLower⟩

/-- Case-insensitive search for a literal pattern, i.e.
`re.search(lit, text, re.IGNORECASE) is not None`. -/
def ciContains (text pat : String) : Bool :=
  (searchPos (fun cs => litMatch pat.data cs) text.data).isSome

/-- Python `str.strip()` (ASCII whitespace). -/
def stripChars (cs : List Char) : List Char :=
  (dropWS (dropWS cs).reverse).reverse

def pyStrip (s : String) : String := ⟨stripChars s.data⟩

/-- Optional single literal character (e.g. the `s?` of `years?`).
Used only where consuming it can never break the rest of the match
(the following token can never match the optional character itself). -/
def optChar (c : Char) : List Char → List Char
  | [] => []
  | x :: xs => if lowEq c x then xs else x :: xs

/-! ## Demographics extraction (`ClinicalNoteParser.extract_demographics`)

Age patterns, tried in source order, each over the whole text:
`Age:\s*(\d+)\s*years?`, `(\d+)\s*years?\s*old`, `(\d+)\s*yo`,
`Age\s*(\d+)`.  In each, greedy `\d+`/`\s*` never needs backtracking
(digit, whitespace and letter classes are disjoint), and trailing
optional pieces that nothing follows (`s?` at the end of `years?`)
cannot affect the match or the captured group, so they are dropped. -/

def matchAge1At (cs : List Char) : Option ℕ := do
  let r1 ← litMatch "age:".data cs
  let (ds, r2) ← digits1 (dropWS r1)
  let _ ← litMatch "year".data (dropWS r2)
  pure (natOfDigits ds)

def matchAge2At (cs : List Char) : Option ℕ := do
  let (ds, r1) ← digits1 cs
  let r2 ← litMatch "year".data (dropWS r1)
  let _ ← litMatch "old".data (dropWS (optChar 's' r2))
  pure (natOfDigits ds)

def matchAge3At (cs : List Char) : Option ℕ := do
  let (ds, r1) ← digits1 cs
  let _ ← litMatch "yo".data (dropWS r1)
  pure (natOfDigits ds)

def matchAge4At (cs : List Char) : Option ℕ := do
  let r1 ← litMatch "age".data cs
  let (ds, _) ← digits1 (dropWS r1)
  pure (natOfDigits ds)

def extract_age (text : String) : Option ℤ :=
  ((searchPos matchAge1At text.data <|> searchPos matchAge2At text.data) <|>
    (searchPos matchAge3At text.data <|> searchPos matchAge4At text.data)).map
    (fun n => (n : ℤ))

/-- `X:\s*(\d+\.?\d*)\s*U` for a heading literal `X` and unit literal `U`. -/
def numUnitAt (unit : String) (cs : List Char) : Option ℚ := do
  let (q, r1) ← ratNum cs
  let _ ← litMatch unit.data (dropWS r1)
  pure q

def headNumUnitAt (heading unit : String) (cs : List Char) : Option ℚ := do
  let r1 ← litMatch heading.data cs
  numUnitAt unit (dropWS r1)

/-- Weight patterns: `Weight:\s*(\d+\.?\d*)\s*kg`, `(\d+\.?\d*)\s*kg`,
`Wt:\s*(\d+\.?\d*)\s*kg`. -/
def extract_weight (text : String) : Option ℚ :=
  (searchPos (headNumUnitAt "weight:" "kg") text.data <|>
    searchPos (numUnitAt "kg") text.data) <|>
  searchPos (headNumUnitAt "wt:" "kg") text.data

/-- Height patterns: `Height:\s*(\d+\.?\d*)\s*cm`, `(\d+\.?\d*)\s*cm`,
`Ht:\s*(\d+\.?\d*)\s*cm`. -/
def extract_height (text : String) : Option ℚ :=
  (searchPos (headNumUnitAt "height:" "cm") text.data <|>
    searchPos (numUnitAt "cm") text.data) <|>
  searchPos (headNumUnitAt "ht:" "cm") text.data

/-- `\d{1,2}/`: one or two digits followed by a slash, consuming the slash.
The regex tries two digits first; since committing to two digits requires
the very next character to be `/`, the one-digit alternative can succeed
only when the two-digit one cannot, so this is exactly the backtracking
order of the engine. -/
def d12Slash : List Char → Option (List Char × List Char)
  | a :: b :: c :: rest =>
    if a.isDigit && b.isDigit && c == '/' then some ([a, b], rest)
    else if a.isDigit && b == '/' then some ([a], c :: rest)
    else none
  | a :: b :: rest => if a.isDigit && b == '/' then some ([a], rest) else none
  | _ => none

/-- `\d{4}`: exactly four digits (fixed width, no backtracking). -/
def d4 : List Char → Option (List Char × List Char)
  | a :: b :: c :: d :: rest =>
    if a.isDigit && b.isDigit && c.isDigit && d.isDigit then some ([a, b, c, d], rest) else none
  | _ => none

/-- The date group `(\d{1,2}/\d{1,2}/\d{4})`, captured verbatim. -/
def matchDateAt (cs : List Char) : Option String := do
  let (p1, r1) ← d12Slash cs
  let (p2, r2) ← d12Slash r1
  let (y, _) ← d4 r2
  pure ⟨p1 ++ '/' :: p2 ++ '/' :: y⟩

def headDateAt (heading : String) (cs : List Char) : Option String := do
  let r1 ← litMatch heading.data cs
  matchDateAt (dropWS r1)

/-- DOB patterns: `DOB:\s*(date)`, `Date of birth:\s*(date)`, `Born:\s*(date)`. -/
def extract_dob (text : String) : Option String :=
  (searchPos (headDateAt "dob:") text.data <|>
    searchPos (headDateAt "date of birth:") text.data) <|>
  searchPos (headDateAt "born:") text.data

/-- The alternation `(male|female|M|F)` under `re.IGNORECASE`, tried in
source order; returns `group(1).lower()`. -/
def matchAltAt (cs : List Char) : Option String :=
  match litMatch "male".data cs with
  | some _ => some "male"
  | none =>
    match litMatch "female".data cs with
    | some _ => some "female"
    | none =>
      match litMatch "m".data cs with
      | some _ => some "m"
      | none =>
        match litMatch "f".data cs with
        | some _ => some "f"
        | none => none

def matchGenderHeadAt (heading : String) (cs : List Char) : Option String := do
  let r1 ← litMatch heading.data cs
  matchAltAt (dropWS r1)

/-- Python `\w` (ASCII part). -/
def isWordChar (c : Char) : Bool := c.isAlphanum || c == '_'

/-- A word boundary after a word character: end of input or a non-word
character next. -/
def boundaryAfter : List Char → Bool
  | [] => true
  | c :: _ => !(isWordChar c)

def altWordAt (alt : String) (cs : List Char) : Option String :=
  match litMatch alt.data cs with
  | some r => if boundaryAfter r then some alt else none
  | none => none

/-- The pattern `\b(male|female|M|F)\b`: word boundary before, each
alternative tried in order with its trailing boundary. -/
def matchGenderWordAt (prev : Option Char) (cs : List Char) : Option String :=
  if (match prev with | none => true | some p => !(isWordChar p)) then
    (altWordAt "male" cs <|> altWordAt "female" cs) <|>
      (altWordAt "m" cs <|> altWordAt "f" cs)
  else none

/-- Normalisation applied to the matched group:
`['m', 'male'] → male`, `['f', 'female'] → female`. -/
def normGender (g : String) : Option String :=
  if g == "m" || g == "male" then some "male"
  else if g == "f" || g == "female" then some "female"
  else none

/-- Gender patterns: `Gender:\s*(male|female|M|F)`, `Sex:\s*(...)`,
`\b(male|female|M|F)\b`. -/
def extract_gender (text : String) : Option String :=
  match
    (searchPos (matchGenderHeadAt "gender:") text.data <|>
      searchPos (matchGenderHeadAt "sex:") text.data) <|>
    searchPosB matchGenderWordAt none text.data
  with
  | none => none
  | some g => normGender g

/-! ## Vital signs (`ClinicalNoteParser.extract_vital_signs`) -/

/-- `X\s*(\d+\.?\d*)` for a heading literal `X`.  The trailing `[°C]?` of
the temperature patterns is optional with nothing after it, so it cannot
affect the match or the capture and is dropped. -/
def headNumAt (heading : String) (cs : List Char) : Option ℚ := do
  let r1 ← litMatch heading.data cs
  let (q, _) ← ratNum (dropWS r1)
  pure q

/-- `(\d+\.?\d*)[°C]` (the class matches `°`, `C` and, under IGNORECASE, `c`). -/
def numDegAt (cs : List Char) : Option ℚ := do
  let (q, r1) ← ratNum cs
  match r1 with
  | c :: _ => if c == '°' || c == 'C' || c == 'c' then pure q else none
  | [] => none

def extract_temperature (text : String) : Option ℚ :=
  (searchPos (headNumAt "t") text.data <|> searchPos (headNumAt "temp:") text.data) <|>
    (searchPos (headNumAt "temperature:") text.data <|> searchPos numDegAt text.data)

/-- `X\s*(\d+)` for a heading literal `X`. -/
def headIntAt (heading : String) (cs : List Char) : Option ℕ := do
  let r1 ← litMatch heading.data cs
  let (ds, _) ← digits1 (dropWS r1)
  pure (natOfDigits ds)

/-- `(\d+)\s*U` for a unit literal `U`. -/
def intUnitAt (unit : String) (cs : List Char) : Option ℕ := do
  let (ds, r1) ← digits1 cs
  let _ ← litMatch unit.data (dropWS r1)
  pure (natOfDigits ds)

def extract_heart_rate (text : String) : Option ℤ :=
  (((searchPos (headIntAt "hr") text.data <|>
      searchPos (headIntAt "heart rate:") text.data) <|>
    (searchPos (headIntAt "pulse:") text.data <|>
      searchPos (intUnitAt "bpm") text.data))).map (fun n => (n : ℤ))

def extract_respiratory_rate (text : String) : Option ℤ :=
  (((searchPos (headIntAt "rr") text.data <|>
      searchPos (headIntAt "respiratory rate:") text.data) <|>
    (searchPos (headIntAt "resp:") text.data <|>
      searchPos (intUnitAt "breaths/min") text.data))).map (fun n => (n : ℤ))

/-- `(\d+/\d+)`, captured verbatim. -/
def bpNumAt (cs : List Char) : Option (List Char × List Char) := do
  let (d1, r1) ← digits1 cs
  match r1 with
  | '/' :: r2 => do
    let (d2, r3) ← digits1 r2
    pure (d1 ++ '/' :: d2, r3)
  | _ => none

def headBpAt (heading : String) (cs : List Char) : Option String := do
  let r1 ← litMatch heading.data cs
  let (s, _) ← bpNumAt (dropWS r1)
  pure ⟨s⟩

def bpUnitAt (cs : List Char) : Option String := do
  let (s, r1) ← bpNumAt cs
  let _ ← litMatch "mmhg".data (dropWS r1)
  pure ⟨s⟩

def extract_blood_pressure (text : String) : Option String :=
  (searchPos (headBpAt "bp") text.data <|>
    searchPos (headBpAt "blood pressure:") text.data) <|>
  searchPos bpUnitAt text.data

/-- `O2\s*sat:\s*(\d+)%?` (the trailing `%?` constrains nothing). -/
def o2satAt (cs : List Char) : Option ℕ := do
  let r1 ← litMatch "o2".data cs
  let r2 ← litMatch "sat:".data (dropWS r1)
  let (ds, _) ← digits1 (dropWS r2)
  pure (natOfDigits ds)

/-- `(\d+)%\s*oxygen`. -/
def pctOxygenAt (cs : List Char) : Option ℕ := do
  let (ds, r1) ← digits1 cs
  match r1 with
  | '%' :: r2 =>
    match litMatch "oxygen".data (dropWS r2) with
    | some _ => pure (natOfDigits ds)
    | none => none
  | _ => none

def extract_oxygen_saturation (text : String) : Option ℚ :=
  (((searchPos o2satAt text.data <|> searchPos (headIntAt "spo2:") text.data) <|>
    (searchPos (headIntAt "oxygen saturation:") text.data <|>
      searchPos pctOxygenAt text.data))).map (fun n => (n : ℚ))

structure VitalSigns where
  temperature : Option ℚ
  heart_rate : Option ℤ
  respiratory_rate : Option ℤ
  blood_pressure : Option String
  oxygen_saturation : Option ℚ
deriving DecidableEq

def extract_vital_signs (text : String) : VitalSigns :=
  ⟨extract_temperature text, extract_heart_rate text, extract_respiratory_rate text,
    extract_blood_pressure text, extract_oxygen_saturation text⟩

/-! ## Symptoms (`ClinicalNoteParser.extract_symptoms`) -/

/-- The symptom vocabulary, in source order. -/
def symptom_patterns : List String :=
  ["barky cough", "hoarse voice", "stridor", "fever", "recession",
   "work of breathing", "wheeze", "cough", "sore throat", "runny nose",
   "congestion", "difficulty breathing", "shortness of breath", "chest pain",
   "fatigue", "headache", "nausea", "vomiting", "diarrhea", "abdominal pain"]

/-- Each vocabulary entry is a metacharacter-free literal, so
`re.search(p, text, IGNORECASE)` is case-insensitive containment; the
display clean-up (`replace` of backslashes) is the identity on these
literals, and the dedup check never fires because the vocabulary entries
are pairwise distinct.  The loop is therefore a filter in vocabulary
order. -/
def extract_symptoms (text : String) : List String :=
  symptom_patterns.filter (fun p => ciContains text p)

/-! ## Sections (`ClinicalNoteParser.extract_sections`)

Every section pattern has the shape
`H:?\s*(.+?)(?=\n\n|\n[A-Z][a-z]+:|\Z)` under `re.IGNORECASE | re.DOTALL`
for a literal heading `H`.  At a given start position the engine's choice
points are, in backtracking order: the optional colon (consumed first),
the greedy `\s*` (longest first), and the lazy `.+?` (shortest first,
at least one character, any character under DOTALL), ending where the
lookahead holds.  `\Z` is absolute end of input; under IGNORECASE the
classes `[A-Z]` and `[a-z]` both mean any ASCII letter. -/

def isAsciiLetter (c : Char) : Bool := c.isAlpha

/-- Maximal run of letters (possibly empty) followed by `:`.  Shortening a
greedy `[a-z]+` run leaves a letter where `:` is required, so maximal
munch is exact. -/
def letterRunThenColon : List Char → Bool
  | [] => false
  | c :: cs => if isAsciiLetter c then letterRunThenColon cs else c == ':'

/-- The lookahead `(?=\n\n|\n[A-Z][a-z]+:|\Z)`. -/
def lookaheadOk : List Char → Bool
  | '\n' :: '\n' :: _ => true
  | '\n' :: c :: d :: rest => isAsciiLetter c && isAsciiLetter d && letterRunThenColon rest
  | [] => true
  | _ => false

/-- Lazy `(.+?)` up to the lookahead: extend one character at a time. -/
def capScan (acc : List Char) : List Char → Option (List Char)
  | [] => none
  | c :: rest => if lookaheadOk rest then some (acc ++ [c]) else capScan (acc ++ [c]) rest

/-- Length of the leading whitespace run. -/
def wsCount : List Char → ℕ
  | [] => 0
  | c :: cs => if isWS c then wsCount cs + 1 else 0

/-- Greedy `\s*` with backtracking: try dropping `k` whitespace characters,
longest first. -/
def tryWSFrom (rest : List Char) : ℕ → Option (List Char)
  | 0 => capScan [] rest
  | k + 1 =>
    match capScan [] (rest.drop (k + 1)) with
    | some s => some s
    | none => tryWSFrom rest k

def wsCapture (rest : List Char) : Option (List Char) :=
  tryWSFrom rest (wsCount rest)

/-- One section pattern at one position: heading literal, optional colon
(with-colon tried first), then `\s*`/lazy-capture as above. -/
def sectionAt (heading : String) (cs : List Char) : Option (List Char) :=
  match litMatch heading.data cs with
  | none => none
  | some afterH =>
    match afterH with
    | ':' :: afterC =>
      (match wsCapture afterC with
       | some s => some s
       | none => wsCapture afterH)
    | _ => wsCapture afterH

/-- One section pattern over the text, with the `.strip()` applied to the
captured group. -/
def sectionSearch (heading : String) (text : String) : Option String :=
  (searchPos (sectionAt heading) text.data).map (fun cs => pyStrip ⟨cs⟩)

/-- First matching pattern wins, in source order. -/
def firstSection (headings : List String) (text : String) : Option String :=
  match headings with
  | [] => none
  | h :: hs =>
    match sectionSearch h text with
    | some s => some s
    | none => firstSection hs text

structure Sections where
  presenting_complaint : Option String
  history : Option String
  examination : Option String
  assessment : Option String
  plan : Option String
deriving DecidableEq

def extract_sections (text : String) : Sections :=
  ⟨firstSection ["presenting complaint", "chief complaint", "cc"] text,
   firstSection ["history", "hpi", "history of present illness"] text,
   firstSection ["examination", "physical exam", "pe"] text,
   firstSection ["assessment", "diagnosis", "impression"] text,
   firstSection ["plan", "treatment", "management"] text⟩

/-! ## Patient data validation and `parse` -/

structure PatientData where
  age : Option ℤ
  weight : Option ℚ
  height : Option ℚ
  dob : Option String
  gender : Option String
deriving DecidableEq

/-- The pydantic `validate_age` validator: rejects `v < 0 or v > 150`. -/
def ageInvalid : Option ℤ → Bool
  | none => false
  | some v => decide (v < 0) || decide (150 < v)

/-- The pydantic `validate_weight` validator: rejects `v < 0.5 or v > 500`
(`0.5` written as `Rat.divInt 1 2`, which the kernel can evaluate). -/
def weightInvalid : Option ℚ → Bool
  | none => false
  | some v => decide (v < Rat.divInt 1 2) || decide (500 < v)

/-- `PatientData(**demographics)`: construction runs the validators and
raises `ValueError` on an out-of-range value. -/
def mkPatientData (age : Option ℤ) (weight height : Option ℚ) (dob gender : Option String) :
    Except String PatientData :=
  if ageInvalid age then .error "Age must be between 0 and 150 years"
  else if weightInvalid weight then .error "Weight must be between 0.5 and 500 kg"
  else .ok ⟨age, weight, height, dob, gender⟩

def extract_demographics (text : String) : Except String PatientData :=
  mkPatientData (extract_age text) (extract_weight text) (extract_height text)
    (extract_dob text) (extract_gender text)

structure ClinicalNote where
  patient_data : PatientData
  symptoms : List String
  assessment : String
  vitals : VitalSigns
  presenting_complaint : Option String
  history : Option String
  examination : Option String
  plan : Option String
deriving DecidableEq

structure ParsedClinicalNote where
  success : Bool
  data : Option ClinicalNote
  errors : List String
  raw_text : String
deriving DecidableEq

/-- `ClinicalNoteParser.parse`: the body runs the four extractors and
builds the `ClinicalNote`; the only raising step is `PatientData`
construction (the other extractors are total and `ClinicalNote` has no
validators), and the catch-all `except` turns any exception into a
failure result with `success=False` and `data=None`. -/
def parse (clinical_note : String) : ParsedClinicalNote :=
  match extract_demographics clinical_note with
  | .error e => ⟨false, none, ["Parsing error: " ++ e], clinical_note⟩
  | .ok patient_data =>
    let vitals := extract_vital_signs clinical_note
    let symptoms := extract_symptoms clinical_note
    let sections := extract_sections clinical_note
    ⟨true,
      some ⟨patient_data, symptoms, (sections.assessment).getD "", vitals,
        sections.presenting_complaint, sections.history, sections.examination,
        sections.plan⟩,
      [], clinical_note⟩

/-! ## Knowledge-store data model

The conditions document (`conditions.json`) is a JSON object mapping
condition identifiers to entries; the shape below records exactly the
accesses the pipeline performs (`.get` with the source's defaults is
modelled by `Option`/`getD`; a key tested with `in` is an `Option`). -/

structure MedData where
  dose_mg_per_kg : Option ℚ
  max_dose_mg : Option ℚ
  min_dose_mg : Option ℚ
  route : Option String
  frequency : Option String
  duration : Option String
  contraindications : List String
  clinical_notes : Option String
deriving DecidableEq

/-- `medications`: a dict from line name (`first_line`, `second_line`,
`rescue`, ...) to a dict from medication name to its data. -/
abbrev MedLines := List (String × List (String × MedData))

structure ConditionData where
  name : Option String
  primary_symptoms : List String
  age_groups : Option (List String)
  medications : MedLines
  red_flags : List String
  clinical_pearls : List String
  differential_diagnosis : List String
  -- Python truthiness of the raw entry dict: `not condition_data` holds
  -- exactly for the empty dict `{}`.  The treatment planner tests it
  -- (`if not condition_data:` in generate_comprehensive_plan), so it is an
  -- observable of the entry and recorded here, like `PatientPayload.isEmpty`.
  isEmpty : Bool
deriving DecidableEq

abbrev Store := List (String × ConditionData)

/-! ## Condition matching (`server.identify_condition`) -/

structure CondMatch where
  condition_id : String
  condition_name : String
  confidence_score : ℕ
  matched_symptoms : List String
deriving DecidableEq

/-- `any(symptom.lower() in primary_symptom.lower() for primary_symptom in primary_symptoms)`. -/
def symptomHit (cd : ConditionData) (s : String) : Bool :=
  cd.primary_symptoms.any (fun p => strContains (pyLower p) (pyLower s))

/-- The symptom loop: `score += 2` and `matched_symptoms.append(symptom)`
for each hit, in input order. -/
def symptomLoop (cd : ConditionData) (symptoms : List String) : ℕ × List String :=
  symptoms.foldl (fun acc s => if symptomHit cd s then (acc.1 + 2, acc.2 ++ [s]) else acc)
    (0, [])

/-- `if assessment and condition_data.get('name', '').lower() in assessment.lower(): score += 3`. -/
def assessBonus (assessment : String) (cd : ConditionData) : ℕ :=
  if assessment == "" then 0
  else if strContains (pyLower assessment) (pyLower (cd.name.getD "")) then 3
  else 0

/-- The age-group block: only when an age was supplied and the entry has an
`age_groups` key; `pediatric` is tested first, `adult` in the `elif`. -/
def ageBonus (patient_age : Option ℤ) (cd : ConditionData) : ℕ :=
  match patient_age, cd.age_groups with
  | some a, some gs =>
    if gs.contains "pediatric" && decide (a < 18) then 1
    else if gs.contains "adult" && decide (18 ≤ a) then 1
    else 0
  | _, _ => 0

def condScore (symptoms : List String) (assessment : String) (patient_age : Option ℤ)
    (cd : ConditionData) : ℕ :=
  (symptomLoop cd symptoms).1 + assessBonus assessment cd + ageBonus patient_age cd

def mkMatch (symptoms : List String) (assessment : String) (patient_age : Option ℤ)
    (cid : String) (cd : ConditionData) : CondMatch :=
  ⟨cid, cd.name.getD cid, condScore symptoms assessment patient_age cd,
    (symptomLoop cd symptoms).2⟩

/-- Sort order of `matches.sort(key=confidence_score, reverse=True)`:
descending by score.  Both Python's sort and `List.insertionSort` with
this relation are stable, so they agree. -/
def matchOrder (a b : CondMatch) : Prop := b.confidence_score ≤ a.confidence_score

instance : DecidableRel matchOrder := fun a b =>
  inferInstanceAs (Decidable (b.confidence_score ≤ a.confidence_score))

instance : IsTotal CondMatch matchOrder :=
  ⟨fun a b => le_total b.confidence_score a.confidence_score⟩

instance : IsTrans CondMatch matchOrder :=
  ⟨fun _ _ _ hab hbc => le_trans hbc hab⟩

/-- The result dict of `identify_condition`; the source key `matches` is a
Lean keyword and is rendered `match_list`. -/
structure IdentifyResult where
  success : Bool
  match_list : List CondMatch
  top_match : Option CondMatch
  total_conditions_evaluated : ℕ
deriving DecidableEq

inductive IdentifyErr where
  | insufficientData
  | invalidPatientData
  | dataUnavailable
deriving DecidableEq

/-- `patient_age is not None and (patient_age < 0 or patient_age > 150)`. -/
def ageCheckFails (patient_age : Option ℤ) : Bool :=
  match patient_age with
  | some a => decide (a < 0) || decide (150 < a)
  | none => false

/-- `server.identify_condition`, with the conditions store passed in place
of the `load_json_data(CONDITIONS_FILE)` call (the claims quantify over
store contents).  Raised `ValidationError`/`DataError` become `Except.error`. -/
def identify_condition (conditions : Store) (symptoms : List String) (assessment : String)
    (patient_age : Option ℤ) : Except IdentifyErr IdentifyResult :=
  if symptoms = [] ∧ assessment = "" then .error .insufficientData
  else if ageCheckFails patient_age then .error .invalidPatientData
  else if conditions = [] then .error .dataUnavailable
  else
    let matchesRaw := conditions.filterMap fun e =>
      if 0 < condScore symptoms assessment patient_age e.2 then
        some (mkMatch symptoms assessment patient_age e.1 e.2)
      else none
    let sortedMatches := List.insertionSort matchOrder matchesRaw
    .ok ⟨true, sortedMatches, sortedMatches.head?, conditions.length⟩

/-! ## Dose calculation (`server.calculate_medication_dose`) -/

/-- JSON values occurring in the dose-result dict. -/
inductive JVal where
  | s : String → JVal
  | q : ℚ → JVal
  | inf : JVal
  | b : Bool → JVal
  | arr : List String → JVal
deriving DecidableEq

inductive DoseErr where
  | insufficientData
  | invalidPatientData
  | dataUnavailable
  | conditionNotFound
  | medicationNotFound
  | invalidDoseCalculation
  | noneAttributeError
deriving DecidableEq

/-- The condition-lookup loop: first entry whose id equals `condition` or
whose lowercased name equals the lowercased `condition`.  (When the loop
fails, `check_condition_exists` necessarily raises, since a key equal to
`condition` would have been found by the loop.) -/
def findCondition (conditions : Store) (condition : String) : Option (String × ConditionData) :=
  conditions.find? fun e =>
    e.1 == condition || pyLower (e.2.name.getD "") == pyLower condition

/-- `check_medication_exists`: the medication is a key of some medication
line (any line name counts). -/
def medicationExists (medication : String) (medications : MedLines) : Bool :=
  medications.any fun line => line.2.any fun kv => kv.1 == medication

def lineLookup (medications : MedLines) (lineName medication : String) : Option MedData :=
  match medications.lookup lineName with
  | none => none
  | some line => line.lookup medication

/-- The data-lookup loop over `['first_line', 'second_line']` only. -/
def findMedData (medication : String) (medications : MedLines) : Option MedData :=
  match lineLookup medications "first_line" medication with
  | some md => some md
  | none => lineLookup medications "second_line" medication

/-- The f-string rationale; numeral rendering differs from Python float
repr, which no claim depends on. -/
def dosingRationale (dose_per_kg patient_weight : ℚ) : String :=
  "Calculated at " ++ toString dose_per_kg ++ " mg/kg for " ++ toString patient_weight
    ++ "kg patient"

/-- `server.calculate_medication_dose`.  The returned dict is modelled as
the association list of its entries in source order.  When the medication
exists only outside `first_line`/`second_line`, the source reaches
`medication_data.get(...)` with `medication_data = None` and dies with an
`AttributeError`, modelled by `noneAttributeError`.  The `severity`
parameter of the source is unused by its body. -/
def calculate_medication_dose (conditions : Store) (medication condition : String)
    (patient_weight : ℚ) : Except DoseErr (List (String × JVal)) :=
  if medication == "" || condition == "" then .error .insufficientData
  else if decide (patient_weight ≤ 0) || decide (500 < patient_weight) then
    .error .invalidPatientData
  else if conditions = [] then .error .dataUnavailable
  else
    match findCondition conditions condition with
    | none => .error .conditionNotFound
    | some (_, condition_data) =>
      let medications := condition_data.medications
      if !(medicationExists medication medications) then .error .medicationNotFound
      else
        match findMedData medication medications with
        | none => .error .noneAttributeError
        | some medication_data =>
          let dose_per_kg := medication_data.dose_mg_per_kg.getD 0
          if decide (dose_per_kg ≤ 0) then .error .invalidDoseCalculation
          else
            let calculated_dose := dose_per_kg * patient_weight
            let min_dose := medication_data.min_dose_mg.getD 0
            let final_dose :=
              match medication_data.max_dose_mg with
              | none => max calculated_dose min_dose
              | some m => min (max calculated_dose min_dose) m
            .ok [("success", .b true),
              ("medication", .s medication),
              ("condition", .s condition),
              ("patient_weight", .q patient_weight),
              ("dose_per_kg", .q dose_per_kg),
              ("calculated_dose", .q calculated_dose),
              ("final_dose", .q final_dose),
              ("unit", .s "mg"),
              ("route", .s (medication_data.route.getD "oral")),
              ("frequency", .s (medication_data.frequency.getD "daily")),
              ("duration", .s (medication_data.duration.getD "")),
              ("max_dose", match medication_data.max_dose_mg with
                | none => .inf
                | some m => .q m),
              ("min_dose", .q min_dose),
              ("dosing_rationale", .s (dosingRationale dose_per_kg patient_weight)),
              ("contraindications", .arr medication_data.contraindications),
              ("clinical_notes", .s (medication_data.clinical_notes.getD ""))]

/-! ## Knowledge-store loading

The state of a backing JSON file, as the two loaders observe it:
the file may be missing (`FileNotFoundError`), unreadable as JSON
(`json.JSONDecodeError`), or parse to a document that is or is not a
JSON object. -/

inductive PyDoc (α : Type) where
  | obj : List (String × α) → PyDoc α
  | nonObj : PyDoc α
deriving DecidableEq

inductive FileState (α : Type) where
  | missing
  | notJson
  | parsed : PyDoc α → FileState α
deriving DecidableEq

inductive DataErrCode where
  | DATA_FILE_NOT_FOUND
  | DATA_FILE_INVALID_JSON
  | DATA_FILE_CORRUPTED
deriving DecidableEq

structure DataErr where
  code : DataErrCode
  recoverable : Bool
deriving DecidableEq

/-- `server.load_json_data`: raises a non-recoverable `DataError` for a
missing file, invalid JSON, or a non-object document; otherwise returns
the parsed mapping. -/
def load_json_data {α : Type} : FileState α → Except DataErr (List (String × α))
  | .missing => .error ⟨.DATA_FILE_NOT_FOUND, false⟩
  | .notJson => .error ⟨.DATA_FILE_INVALID_JSON, false⟩
  | .parsed .nonObj => .error ⟨.DATA_FILE_CORRUPTED, false⟩
  | .parsed (.obj m) => .ok m

/-- `TreatmentPlanGenerator._load_json_data`: logs and returns `{}` when
the file is missing or not valid JSON, and passes any parsed document
through without an object-shape check. -/
def planner_load_json_data {α : Type} : FileState α → PyDoc α
  | .missing => .obj []
  | .notJson => .obj []
  | .parsed d => d

/-! ## Treatment planning (`tools/treatment_planner.py`)

The guidelines document shape records exactly the accesses the planner
performs.  `decision_tree.get('treatment_algorithm', {})` and
`monitoring.get('deterioration_signs', [])` are flattened into fields.
A severity key absent from the treatment algorithm behaves as an empty
entry (every `.get` falls back to its default), which
`emptySeverityEntry` represents. -/

structure MonDict where
  frequency : Option String
  parameters : Option (List String)
  duration : Option String
  location : Option String
deriving DecidableEq

/-- A `monitoring` value in a severity entry: the `isinstance(dict)` test
distinguishes dict-shaped data from anything else. -/
inductive MonVal where
  | mdict : MonDict → MonVal
  | nonDict : MonVal
deriving DecidableEq

/-- A `discharge_criteria` value: the `isinstance(list)` test
distinguishes list-shaped data from anything else. -/
inductive DisVal where
  | dlist : List String → DisVal
  | nonList : DisVal
deriving DecidableEq

structure SeverityEntry where
  immediate_actions : List String
  monitoring : Option MonVal
  follow_up : Option String
  discharge_criteria : Option DisVal
  safety_netting : Option String
deriving DecidableEq

def emptySeverityEntry : SeverityEntry := ⟨[], none, none, none, none⟩

structure GFollowUp where
  mild_cases : Option String
  moderate_cases : Option String
  severe_cases : Option String
  parent_education : List String
deriving DecidableEq

structure GuidelineData where
  name : Option String
  version : Option String
  source : Option String
  last_updated : Option String
  conditions : List String
  treatment_algorithm : List (String × SeverityEntry)
  follow_up_info : GFollowUp
  deterioration_signs : List String
deriving DecidableEq

abbrev Guidelines := List (String × GuidelineData)

/-- `TreatmentPlanGenerator.get_guideline_for_condition`: the first
guideline whose covered-conditions list contains the id. -/
def get_guideline_for_condition (guidelines : Guidelines) (condition_id : String) :
    Option GuidelineData :=
  (guidelines.find? fun g => g.2.conditions.contains condition_id).map (fun g => g.2)

def severityEntry (g : GuidelineData) (severity : String) : SeverityEntry :=
  (g.treatment_algorithm.lookup severity).getD emptySeverityEntry

/-- `generate_immediate_actions` (an empty severity-specific list is falsy
and falls back to the two-element default). -/
def generate_immediate_actions (guidelines : Guidelines) (condition_id severity : String) :
    List String :=
  match get_guideline_for_condition guidelines condition_id with
  | none => ["Supportive care", "Monitor symptoms", "Ensure adequate hydration"]
  | some g =>
    let severity_actions := (severityEntry g severity).immediate_actions
    if severity_actions = [] then ["Supportive care", "Monitor symptoms"] else severity_actions

structure MonitoringPlan where
  frequency : String
  parameters : List String
  duration : String
  location : Option String
deriving DecidableEq

/-- `generate_monitoring_plan`.  A missing `monitoring` key defaults to
`{}`, which is a dict, hence takes the dict branch with all defaults. -/
def generate_monitoring_plan (guidelines : Guidelines) (condition_id severity : String) :
    MonitoringPlan :=
  match get_guideline_for_condition guidelines condition_id with
  | none => ⟨"regular", ["vital signs", "symptom progression"], "until improvement", none⟩
  | some g =>
    match ((severityEntry g severity).monitoring).getD (.mdict ⟨none, none, none, none⟩) with
    | .mdict md =>
      ⟨md.frequency.getD "regular", md.parameters.getD ["vital signs"],
        md.duration.getD "until improvement", some (md.location.getD "standard care area")⟩
    | .nonDict => ⟨"regular", ["vital signs", "symptom progression"], "until improvement", none⟩

structure FollowUpPlan where
  timeline : String
  instructions : List String
  parent_education : Option (List String)
deriving DecidableEq

/-- `generate_follow_up_plan`.  The generic branch has no
`parent_education` key; the guideline branch always adds one. -/
def generate_follow_up_plan (guidelines : Guidelines) (condition_id severity : String) :
    FollowUpPlan :=
  match get_guideline_for_condition guidelines condition_id with
  | none => ⟨"routine", ["Follow up with primary care provider"], none⟩
  | some g =>
    let fui := g.follow_up_info
    let severity_follow_up := ((severityEntry g severity).follow_up).getD "routine"
    let instructions :=
      if severity == "mild" then [fui.mild_cases.getD "routine follow-up"]
      else if severity == "moderate" then [fui.moderate_cases.getD "review in 24-48 hours"]
      else if severity == "severe" then [fui.severe_cases.getD "inpatient monitoring"]
      else []
    ⟨severity_follow_up, instructions, some fui.parent_education⟩

/-- `generate_discharge_criteria`.  A missing key defaults to `[]`, which
is a list and is returned as-is (even though empty). -/
def generate_discharge_criteria (guidelines : Guidelines) (condition_id severity : String) :
    List String :=
  match get_guideline_for_condition guidelines condition_id with
  | none => ["Stable vital signs", "Improved symptoms", "Adequate oral intake"]
  | some g =>
    match ((severityEntry g severity).discharge_criteria).getD (.dlist []) with
    | .dlist l => l
    | .nonList => ["Stable vital signs", "Improved symptoms"]

structure SafetyNetting where
  advice : String
  warning_signs : List String
deriving DecidableEq

def generate_safety_netting (guidelines : Guidelines) (condition_id severity : String) :
    SafetyNetting :=
  match get_guideline_for_condition guidelines condition_id with
  | none =>
    ⟨"Return if symptoms worsen",
      ["Increased difficulty breathing", "High fever", "Poor feeding"]⟩
  | some g =>
    ⟨((severityEntry g severity).safety_netting).getD "return if worsening",
      g.deterioration_signs⟩

/-- The `patient_data` argument of the plan entry points, recording the
accesses performed on the dict: its truthiness (`if not patient_data`),
`.get('patient_data', {}).get('age')`, the analogous weight access, and
`.get('symptoms', [])`. -/
structure PatientPayload where
  isEmpty : Bool
  inner_age : Option ℤ
  inner_weight : Option ℚ
  symptoms : List String
deriving DecidableEq

structure PatientSummary where
  age : Option ℤ
  weight : Option ℚ
  symptoms : List String
deriving DecidableEq

structure GuidelineInfo where
  name : Option String
  version : Option String
  source : Option String
  last_updated : Option String
deriving DecidableEq

structure TreatmentPlan where
  condition : String
  condition_id : String
  severity : String
  patient_summary : PatientSummary
  immediate_actions : List String
  medications : List (List (String × JVal))
  monitoring : MonitoringPlan
  discharge_criteria : List String
  follow_up : FollowUpPlan
  safety_netting : SafetyNetting
  red_flags : List String
  clinical_pearls : List String
  differential_diagnosis : List String
  guideline_info : Option GuidelineInfo
deriving DecidableEq

/-- `generate_comprehensive_plan` returns either a plan dict or the
`{"error": "Condition '...' not found"}` dict. -/
inductive PlanResult where
  | plan : TreatmentPlan → PlanResult
  | errorDict : String → PlanResult
deriving DecidableEq

/-- `TreatmentPlanGenerator.generate_comprehensive_plan`.  The stores are
passed in place of the constructor's file loads.  The guard
`if not condition_data:` fires both when the key is absent
(`self.conditions.get(condition_id)` returned `None`) and when the entry
is the falsy empty dict; both return the same error dict.
`calculated_doses or []` maps `None` (and `[]`) to `[]`. -/
def generate_comprehensive_plan (conditions : Store) (guidelines : Guidelines)
    (condition_id severity : String) (patient_data : PatientPayload)
    (calculated_doses : Option (List (List (String × JVal)))) : PlanResult :=
  match conditions.lookup condition_id with
  | none => .errorDict ("Condition " ++ condition_id ++ " not found")
  | some condition_data =>
    if condition_data.isEmpty then
      .errorDict ("Condition " ++ condition_id ++ " not found")
    else
    .plan ⟨condition_data.name.getD condition_id, condition_id, severity,
      ⟨patient_data.inner_age, patient_data.inner_weight, patient_data.symptoms⟩,
      generate_immediate_actions guidelines condition_id severity,
      calculated_doses.getD [],
      generate_monitoring_plan guidelines condition_id severity,
      generate_discharge_criteria guidelines condition_id severity,
      generate_follow_up_plan guidelines condition_id severity,
      generate_safety_netting guidelines condition_id severity,
      condition_data.red_flags, condition_data.clinical_pearls,
      condition_data.differential_diagnosis,
      (get_guideline_for_condition guidelines condition_id).map
        (fun g => ⟨g.name, g.version, g.source, g.last_updated⟩)⟩

structure PlannerResponse where
  success : Bool
  treatment_plan : Option PlanResult
deriving DecidableEq

/-- The `generate_comprehensive_treatment_plan` wrapper: its body raises
nothing (the planner is total), so it always returns
`{"success": True, "treatment_plan": ...}` — including when the plan value
is the planner's own error dict, which the wrapper does not inspect. -/
def generate_comprehensive_treatment_plan (conditions : Store) (guidelines : Guidelines)
    (condition_id severity : String) (patient_data : PatientPayload)
    (calculated_doses : Option (List (List (String × JVal)))) : PlannerResponse :=
  ⟨true, some (generate_comprehensive_plan conditions guidelines condition_id severity
    patient_data calculated_doses)⟩

inductive PlanErr where
  | insufficientData
  | invalidPatientData
  | dataUnavailable
  | conditionNotFound
  | treatmentPlanError
deriving DecidableEq

/-- `server.generate_treatment_plan`.  Validation, name-to-id conversion,
`check_condition_exists`, then the planner call; the two stores are those
loaded from the same backing files. -/
def generate_treatment_plan (conditions : Store) (guidelines : Guidelines)
    (condition severity : String) (patient_data : PatientPayload)
    (calculated_doses : Option (List (List (String × JVal)))) :
    Except PlanErr PlanResult :=
  if condition == "" || severity == "" then .error .insufficientData
  else if !(severity == "mild" || severity == "moderate" || severity == "severe") then
    .error .invalidPatientData
  else if patient_data.isEmpty then .error .insufficientData
  else if conditions = [] then .error .dataUnavailable
  else
    let condition_id :=
      if (conditions.lookup condition).isSome then condition
      else
        match conditions.find? (fun e => pyLower (e.2.name.getD "") == pyLower condition) with
        | some e => e.1
        | none => condition
    if (conditions.lookup condition_id).isNone then .error .conditionNotFound
    else
      let result := generate_comprehensive_treatment_plan conditions guidelines condition_id
        severity patient_data calculated_doses
      if result.success then
        match result.treatment_plan with
        | some pr => .ok pr
        | none => .error .treatmentPlanError
      else .error .treatmentPlanError

/-! ## Specification-side definitions

These are written from the specification's wording, to be compared with
the definitions above (which are translated from the source). -/

/-- The clamp of the specification: `clamp(x, m, M) = min(max(x, m), M)`,
an absent maximum meaning no upper cut-off. -/
def specClamp (x m : ℚ) (M : Option ℚ) : ℚ :=
  match M with
  | none => max x m
  | some M0 => min (max x m) M0

/-! ## Helper lemmas -/

theorem lookup_mem {β : Type} {l : List (String × β)} {k : String} {v : β}
    (h : l.lookup k = some v) : (k, v) ∈ l := by
  induction l with
  | nil => exact absurd h (by simp)
  | cons e t ih =>
    obtain ⟨a, b⟩ := e
    cases hk : (k == a) with
    | true =>
      rw [List.lookup, hk] at h
      injection h with h
      subst h
      have hka : k = a := beq_iff_eq.mp hk
      subst hka
      exact List.mem_cons_self _ _
    | false =>
      rw [List.lookup, hk] at h
      exact List.mem_cons_of_mem _ (ih h)

theorem medicationExists_of_lineLookup {medication lineName : String} {meds : MedLines}
    {md : MedData} (h : lineLookup meds lineName medication = some md) :
    medicationExists medication meds = true := by
  unfold lineLookup at h
  cases hl : meds.lookup lineName with
  | none => rw [hl] at h; cases h
  | some line =>
    rw [hl] at h
    have hm : (medication, md) ∈ line := lookup_mem h
    have hline : (lineName, line) ∈ meds := lookup_mem hl
    unfold medicationExists
    rw [List.any_eq_true]
    refine ⟨(lineName, line), hline, ?_⟩
    rw [List.any_eq_true]
    exact ⟨(medication, md), hm, by simp⟩

theorem medicationExists_of_findMedData {medication : String} {meds : MedLines} {md : MedData}
    (h : findMedData medication meds = some md) : medicationExists medication meds = true := by
  unfold findMedData at h
  cases h1 : lineLookup meds "first_line" medication with
  | some md1 => exact medicationExists_of_lineLookup h1
  | none => rw [h1] at h; exact medicationExists_of_lineLookup h

theorem findCondition_ne_nil {conditions : Store} {condition : String} {e}
    (h : findCondition conditions condition = some e) : conditions ≠ [] := by
  intro hc
  subst hc
  exact absurd h (by simp [findCondition])

/-- Common reduction of `calculate_medication_dose` under valid inputs up
to the medication-data lookup. -/
theorem dose_reduction {conditions : Store} {medication condition : String}
    {patient_weight : ℚ} {cid : String} {cdata : ConditionData}
    (hmed : medication ≠ "") (hcond : condition ≠ "")
    (hw0 : 0 < patient_weight) (hw500 : patient_weight ≤ 500)
    (hfind : findCondition conditions condition = some (cid, cdata))
    (hex : medicationExists medication cdata.medications = true) :
    calculate_medication_dose conditions medication condition patient_weight =
      (match findMedData medication cdata.medications with
       | none => .error .noneAttributeError
       | some medication_data =>
          let dose_per_kg := medication_data.dose_mg_per_kg.getD 0
          if decide (dose_per_kg ≤ 0) then .error .invalidDoseCalculation
          else
            let calculated_dose := dose_per_kg * patient_weight
            let min_dose := medication_data.min_dose_mg.getD 0
            let final_dose :=
              match medication_data.max_dose_mg with
              | none => max calculated_dose min_dose
              | some m => min (max calculated_dose min_dose) m
            .ok [("success", .b true),
              ("medication", .s medication),
              ("condition", .s condition),
              ("patient_weight", .q patient_weight),
              ("dose_per_kg", .q dose_per_kg),
              ("calculated_dose", .q calculated_dose),
              ("final_dose", .q final_dose),
              ("unit", .s "mg"),
              ("route", .s (medication_data.route.getD "oral")),
              ("frequency", .s (medication_data.frequency.getD "daily")),
              ("duration", .s (medication_data.duration.getD "")),
              ("max_dose", match medication_data.max_dose_mg with
                | none => .inf
                | some m => .q m),
              ("min_dose", .q min_dose),
              ("dosing_rationale", .s (dosingRationale dose_per_kg patient_weight)),
              ("contraindications", .arr medication_data.contraindications),
              ("clinical_notes", .s (medication_data.clinical_notes.getD ""))]) := by
  have h1 : (medication == "" || condition == "") = false := by
    simp [hmed, hcond]
  have h2 : (decide (patient_weight ≤ 0) || decide (500 < patient_weight)) = false := by
    simp only [Bool.or_eq_false_iff, decide_eq_false_iff_not, not_le, not_lt]
    exact ⟨hw0, hw500⟩
  have hne : conditions ≠ [] := findCondition_ne_nil hfind
  unfold calculate_medication_dose
  rw [h1, h2, if_neg (by simp), if_neg (by simp), if_neg hne, hfind]
  simp only [hex, Bool.not_true, Bool.false_eq_true, if_false]

/-! ## Concrete store used by witnesses -/

def dexData : MedData :=
  ⟨some (3 / 20), some 10, some (3 / 5), some "oral", some "single dose", some "once",
    ["systemic fungal infection"], some "give early"⟩

def adrenalineData : MedData :=
  ⟨some 1, some 5, none, some "nebulised", some "stat", none, [], none⟩

def croupData : ConditionData :=
  ⟨some "Croup", ["barky cough", "stridor", "hoarse voice"], some ["pediatric"],
    [("first_line", [("dexamethasone", dexData)]),
     ("rescue", [("adrenaline", adrenalineData)])],
    ["cyanosis", "drooling"], ["steroids work"], ["epiglottitis"], false⟩

def condStore : Store := [("croup", croupData)]

/-! ## C1 — dose calculation computes `d*w` and clamps it -/

/-- C1: for every dose request with weight in `(0, 500]`, configured
dose-per-kg `d > 0` and configured bounds (absent minimum defaulting to
`0`, absent maximum to no cut-off), `calculate_medication_dose` succeeds
with `calculated_dose = d*w` and `final_dose = clamp(d*w, m, M)`. -/
theorem calculate_medication_dose_clamps
    (conditions : Store) (medication condition : String) (patient_weight : ℚ)
    (cid : String) (cdata : ConditionData) (md : MedData) (d : ℚ)
    (hmed : medication ≠ "") (hcond : condition ≠ "")
    (hw0 : 0 < patient_weight) (hw500 : patient_weight ≤ 500)
    (hfind : findCondition conditions condition = some (cid, cdata))
    (hmd : findMedData medication cdata.medications = some md)
    (hdose : md.dose_mg_per_kg = some d) (hdpos : 0 < d) :
    ∃ r, calculate_medication_dose conditions medication condition patient_weight = .ok r ∧
      r.lookup "calculated_dose" = some (.q (d * patient_weight)) ∧
      r.lookup "final_dose" =
        some (.q (specClamp (d * patient_weight) (md.min_dose_mg.getD 0) md.max_dose_mg)) := by
  rw [dose_reduction hmed hcond hw0 hw500 hfind (medicationExists_of_findMedData hmd), hmd]
  have hd : decide (d ≤ 0) = false := decide_eq_false (not_le.mpr hdpos)
  simp only [hdose, Option.getD_some, hd, Bool.false_eq_true, if_false]
  refine ⟨_, rfl, ?_, ?_⟩
  · rfl
  · cases hM : md.max_dose_mg <;> simp [specClamp, List.lookup, hM]

/-- Witness for C1: the croup store, dexamethasone at 0.15 mg/kg with
maximum 10 mg, weight 100 kg: calculated 15 mg, clamped to 10 mg. -/
theorem calculate_medication_dose_clamps_witness :
    ∃ r, calculate_medication_dose condStore "dexamethasone" "croup" 100 = .ok r ∧
      r.lookup "calculated_dose" = some (.q 15) ∧
      r.lookup "final_dose" = some (.q 10) := by
  obtain ⟨r, h1, h2, h3⟩ :=
    calculate_medication_dose_clamps condStore "dexamethasone" "croup" 100 "croup" croupData
      dexData (3 / 20) (by decide) (by decide) (by norm_num) (by norm_num) rfl rfl rfl
      (by norm_num)
  refine ⟨r, h1, ?_, ?_⟩
  · rw [h2]; norm_num
  · rw [h3]
    have : specClamp ((3 : ℚ) / 20 * 100) (dexData.min_dose_mg.getD 0) dexData.max_dose_mg
        = 10 := by
      simp [specClamp, dexData]
      norm_num
    rw [this]

/-! ## C3 — the result does not record a limiting-bound field -/

/-- C3 counterexample: with dexamethasone configured at 0.15 mg/kg with
minimum dose 0.6 mg, a 2 kg patient gets `calculated_dose = 0.3` raised to
`final_dose = 0.6`, yet no field of the returned dict holds the string
`"minimum"` — the result records no limiting-bound indicator. -/
theorem dose_result_no_limiting_field_cex :
    (calculate_medication_dose condStore "dexamethasone" "croup" 2).map
        (fun r => (r.lookup "calculated_dose", r.lookup "final_dose",
          r.all fun kv => !(kv.2 == JVal.s "minimum"))) =
      .ok (some (.q (3 / 10)), some (.q (3 / 5)), true) := by
  rw [dose_reduction (by decide) (by decide) (by norm_num) (by norm_num)
    (rfl : findCondition condStore "croup" = some ("croup", croupData))
    (rfl : medicationExists "dexamethasone" croupData.medications = true)]
  rw [show findMedData "dexamethasone" croupData.medications = some dexData from rfl]
  have hd : decide ((dexData.dose_mg_per_kg.getD 0) ≤ 0) = false :=
    decide_eq_false (by norm_num [dexData])
  simp only [hd, Bool.false_eq_true, if_false, Except.map]
  have hmax : dexData.max_dose_mg = some 10 := rfl
  have hmin : dexData.min_dose_mg = some (3 / 5) := rfl
  have hdp : dexData.dose_mg_per_kg = some (3 / 20) := rfl
  simp only [hmax, hmin, hdp, Option.getD_some]
  have hc : (3 : ℚ) / 20 * 2 = 3 / 10 := by norm_num
  have hf : min (max ((3 : ℚ) / 10) (3 / 5)) 10 = 3 / 5 := by
    rw [max_eq_right (by norm_num), min_eq_left (by norm_num)]
  rw [hc, hf]
  rfl

/-- C3 amended: the successful dose result carries no limiting-bound
field; its keys are exactly the sixteen listed, and the limiting bound is
recoverable because the result records `calculated_dose`, `final_dose`,
`min_dose` and `max_dose` with `final_dose = clamp(calculated_dose,
min_dose, max_dose)`. -/
theorem dose_result_records_bounds_not_limiting_field
    (conditions : Store) (medication condition : String) (patient_weight : ℚ)
    (cid : String) (cdata : ConditionData) (md : MedData) (d : ℚ)
    (hmed : medication ≠ "") (hcond : condition ≠ "")
    (hw0 : 0 < patient_weight) (hw500 : patient_weight ≤ 500)
    (hfind : findCondition conditions condition = some (cid, cdata))
    (hmd : findMedData medication cdata.medications = some md)
    (hdose : md.dose_mg_per_kg = some d) (hdpos : 0 < d) :
    ∃ r, calculate_medication_dose conditions medication condition patient_weight = .ok r ∧
      r.map Prod.fst = ["success", "medication", "condition", "patient_weight",
        "dose_per_kg", "calculated_dose", "final_dose", "unit", "route", "frequency",
        "duration", "max_dose", "min_dose", "dosing_rationale", "contraindications",
        "clinical_notes"] ∧
      r.lookup "min_dose" = some (.q (md.min_dose_mg.getD 0)) ∧
      r.lookup "max_dose" =
        some (match md.max_dose_mg with | none => JVal.inf | some m => .q m) ∧
      r.lookup "final_dose" =
        some (.q (specClamp (d * patient_weight) (md.min_dose_mg.getD 0) md.max_dose_mg)) := by
  rw [dose_reduction hmed hcond hw0 hw500 hfind (medicationExists_of_findMedData hmd), hmd]
  have hd : decide (d ≤ 0) = false := decide_eq_false (not_le.mpr hdpos)
  simp only [hdose, Option.getD_some, hd, Bool.false_eq_true, if_false]
  refine ⟨_, rfl, by rfl, by rfl, ?_, ?_⟩
  · cases hM : md.max_dose_mg <;> simp [List.lookup, hM]
  · cases hM : md.max_dose_mg <;> simp [specClamp, List.lookup, hM]

/-- Witness for the amended C3 at the minimum-raised input. -/
theorem dose_result_records_bounds_witness :
    ∃ r, calculate_medication_dose condStore "dexamethasone" "croup" 2 = .ok r ∧
      r.map Prod.fst = ["success", "medication", "condition", "patient_weight",
        "dose_per_kg", "calculated_dose", "final_dose", "unit", "route", "frequency",
        "duration", "max_dose", "min_dose", "dosing_rationale", "contraindications",
        "clinical_notes"] ∧
      r.lookup "min_dose" = some (.q (3 / 5)) ∧
      r.lookup "max_dose" = some (.q 10) ∧
      r.lookup "final_dose" = some (.q (3 / 5)) := by
  obtain ⟨r, h1, h2, h3, h4, h5⟩ :=
    dose_result_records_bounds_not_limiting_field condStore "dexamethasone" "croup" 2
      "croup" croupData dexData (3 / 20) (by decide) (by decide) (by norm_num)
      (by norm_num) rfl rfl rfl (by norm_num)
  refine ⟨r, h1, h2, by rw [h3]; rfl, by rw [h4]; rfl, ?_⟩
  rw [h5]
  have : specClamp ((3 : ℚ) / 20 * 2) (dexData.min_dose_mg.getD 0) dexData.max_dose_mg
      = 3 / 5 := by
    simp only [specClamp, dexData, Option.getD_some]
    rw [show (3 : ℚ) / 20 * 2 = 3 / 10 by norm_num,
      max_eq_right (by norm_num : (3 : ℚ) / 10 ≤ 3 / 5),
      min_eq_left (by norm_num : (3 : ℚ) / 5 ≤ 10)]
  rw [this]

/-! ## C10 — medication present only outside first/second line -/

/-- C10: when the requested medication appears in some medication line
other than `first_line`/`second_line` (e.g. only in `rescue`), the
existence check passes (no `MedicationNotFound`), but the data lookup
finds nothing and the subsequent attribute access on `None` fails, so no
dose result is returned. -/
theorem rescue_only_medication_no_dose
    (conditions : Store) (medication condition : String) (patient_weight : ℚ)
    (cid : String) (cdata : ConditionData)
    (hmed : medication ≠ "") (hcond : condition ≠ "")
    (hw0 : 0 < patient_weight) (hw500 : patient_weight ≤ 500)
    (hfind : findCondition conditions condition = some (cid, cdata))
    (h1 : lineLookup cdata.medications "first_line" medication = none)
    (h2 : lineLookup cdata.medications "second_line" medication = none)
    (hex : medicationExists medication cdata.medications = true) :
    calculate_medication_dose conditions medication condition patient_weight =
      .error .noneAttributeError := by
  rw [dose_reduction hmed hcond hw0 hw500 hfind hex]
  rw [show findMedData medication cdata.medications = none from by
    unfold findMedData; rw [h1, h2]]

/-- Witness for C10: adrenaline appears only in the `rescue` line of the
croup entry. -/
theorem rescue_only_medication_no_dose_witness :
    calculate_medication_dose condStore "adrenaline" "croup" 10 =
      .error .noneAttributeError :=
  rescue_only_medication_no_dose condStore "adrenaline" "croup" 10 "croup" croupData
    (by decide) (by decide) (by norm_num) (by norm_num) rfl rfl rfl rfl

/-! ## C7 — knowledge-store loading -/

/-- C7 counterexample: the treatment planner's loader returns the empty
mapping — an empty substitute — instead of failing, both for a missing
backing file and for invalid JSON. -/
theorem planner_load_returns_empty_cex :
    planner_load_json_data (FileState.missing : FileState ConditionData) = .obj [] ∧
    planner_load_json_data (FileState.notJson : FileState ConditionData) = .obj [] :=
  ⟨rfl, rfl⟩

/-- C7 amended: the server's `load_json_data` satisfies the contract —
it returns the full parsed mapping exactly when the backing file parses
to an object, and otherwise fails with a non-recoverable error; the
treatment planner's `_load_json_data`, however, returns an empty mapping
for a missing or unparsable file instead of failing. -/
theorem load_json_data_contract {α : Type} (fs : FileState α) :
    ((∃ m, load_json_data fs = .ok m ∧ fs = .parsed (.obj m)) ∨
      (∃ e, load_json_data fs = .error e ∧ e.recoverable = false)) ∧
    planner_load_json_data (FileState.missing : FileState α) = .obj [] ∧
    planner_load_json_data (FileState.notJson : FileState α) = .obj [] := by
  refine ⟨?_, rfl, rfl⟩
  cases fs with
  | missing => exact Or.inr ⟨_, rfl, rfl⟩
  | notJson => exact Or.inr ⟨_, rfl, rfl⟩
  | parsed d =>
    cases d with
    | obj m => exact Or.inl ⟨m, rfl, rfl⟩
    | nonObj => exact Or.inr ⟨_, rfl, rfl⟩

/-! ## C8 — unknown condition always fails with ConditionNotFound -/

/-- C8: requesting a treatment plan for a condition absent from the
knowledge store (matched neither by identifier nor, case-insensitively,
by display name) always fails with `ConditionNotFound`; no plan, partial
or otherwise, is returned. -/
theorem unknown_condition_always_not_found
    (conditions : Store) (guidelines : Guidelines) (condition severity : String)
    (patient_data : PatientPayload)
    (calculated_doses : Option (List (List (String × JVal))))
    (hc : condition ≠ "")
    (hs : severity = "mild" ∨ severity = "moderate" ∨ severity = "severe")
    (hp : patient_data.isEmpty = false)
    (hne : conditions ≠ [])
    (hid : conditions.lookup condition = none)
    (hname : ∀ e ∈ conditions, pyLower (e.2.name.getD "") ≠ pyLower condition) :
    generate_treatment_plan conditions guidelines condition severity patient_data
      calculated_doses = .error .conditionNotFound := by
  have hsev : severity ≠ "" := by rcases hs with h | h | h <;> simp [h]
  have h1 : (condition == "" || severity == "") = false := by simp [hc, hsev]
  have h2 : (!(severity == "mild" || severity == "moderate" || severity == "severe"))
      = false := by rcases hs with h | h | h <;> simp [h]
  have hfind : conditions.find?
      (fun e => pyLower (e.2.name.getD "") == pyLower condition) = none := by
    rw [List.find?_eq_none]
    intro e he
    simp [hname e he]
  simp only [generate_treatment_plan, h1, h2, hp, Bool.false_eq_true, if_false,
    if_neg hne, hid, hfind, Option.isSome_none, Option.isNone_none, if_true]

/-- Witness for C8: the croup-only store does not know `flu`. -/
theorem unknown_condition_always_not_found_witness :
    generate_treatment_plan condStore [] "flu" "moderate" ⟨false, some 3, some 14, []⟩
      none = .error .conditionNotFound := by
  refine unknown_condition_always_not_found condStore [] "flu" "moderate"
    ⟨false, some 3, some 14, []⟩ none (by decide) (Or.inr (Or.inl rfl)) rfl
    (by decide) rfl ?_
  intro e he
  have : e = ("croup", croupData) := by
    simpa [condStore] using he
  subst this
  decide

/-! ## C9 — known condition with no covering guideline gets generic defaults -/

/-- C9: assembling a plan for a condition present in the store (as a
non-empty entry — a falsy `{}` entry takes the planner's error path
instead) but covered by no guideline succeeds and carries the non-empty
generic monitoring, follow-up and discharge-criteria defaults. -/
theorem no_guideline_generic_defaults
    (conditions : Store) (guidelines : Guidelines) (condition_id severity : String)
    (patient_data : PatientPayload)
    (calculated_doses : Option (List (List (String × JVal))))
    (cdata : ConditionData)
    (hs : severity = "mild" ∨ severity = "moderate" ∨ severity = "severe")
    (hp : patient_data.isEmpty = false)
    (hcid : condition_id ≠ "")
    (hlook : conditions.lookup condition_id = some cdata)
    (hfalsy : cdata.isEmpty = false)
    (hg : ∀ g ∈ guidelines, condition_id ∉ g.2.conditions) :
    ∃ p, generate_treatment_plan conditions guidelines condition_id severity patient_data
        calculated_doses = .ok (.plan p) ∧
      p.monitoring = ⟨"regular", ["vital signs", "symptom progression"],
        "until improvement", none⟩ ∧
      p.follow_up = ⟨"routine", ["Follow up with primary care provider"], none⟩ ∧
      p.discharge_criteria = ["Stable vital signs", "Improved symptoms",
        "Adequate oral intake"] ∧
      p.monitoring.frequency ≠ "" ∧ p.monitoring.duration ≠ "" ∧
      p.monitoring.parameters ≠ [] ∧ p.follow_up.timeline ≠ "" ∧
      p.follow_up.instructions ≠ [] ∧ p.discharge_criteria ≠ [] := by
  have hne : conditions ≠ [] := by
    intro h
    subst h
    exact absurd hlook (by simp)
  have hsev : severity ≠ "" := by rcases hs with h | h | h <;> simp [h]
  have h1 : (condition_id == "" || severity == "") = false := by simp [hcid, hsev]
  have h2 : (!(severity == "mild" || severity == "moderate" || severity == "severe"))
      = false := by rcases hs with h | h | h <;> simp [h]
  have hnog : get_guideline_for_condition guidelines condition_id = none := by
    unfold get_guideline_for_condition
    rw [List.find?_eq_none.mpr]
    · rfl
    · intro g hgm
      simpa using hg g hgm
  have hmain : generate_treatment_plan conditions guidelines condition_id severity
      patient_data calculated_doses = .ok (.plan
      ⟨cdata.name.getD condition_id, condition_id, severity,
        ⟨patient_data.inner_age, patient_data.inner_weight, patient_data.symptoms⟩,
        ["Supportive care", "Monitor symptoms", "Ensure adequate hydration"],
        calculated_doses.getD [],
        ⟨"regular", ["vital signs", "symptom progression"], "until improvement", none⟩,
        ["Stable vital signs", "Improved symptoms", "Adequate oral intake"],
        ⟨"routine", ["Follow up with primary care provider"], none⟩,
        ⟨"Return if symptoms worsen",
          ["Increased difficulty breathing", "High fever", "Poor feeding"]⟩,
        cdata.red_flags, cdata.clinical_pearls, cdata.differential_diagnosis, none⟩) := by
    simp only [generate_treatment_plan, h1, h2, hp, hfalsy, Bool.false_eq_true, if_false,
      if_neg hne, hlook, Option.isSome_some, if_true, Option.isNone_some,
      generate_comprehensive_treatment_plan, generate_comprehensive_plan,
      generate_monitoring_plan, generate_follow_up_plan, generate_discharge_criteria,
      generate_immediate_actions, generate_safety_netting, hnog]
    rfl
  exact ⟨_, hmain, rfl, rfl, rfl, by simp, by simp, by simp, by simp, by simp, by simp⟩

/-- Witness for C9: a croup plan with an empty guidelines table. -/
theorem no_guideline_generic_defaults_witness :
    ∃ p, generate_treatment_plan condStore [] "croup" "mild" ⟨false, some 3, some 14, []⟩
        none = .ok (.plan p) ∧
      p.monitoring = ⟨"regular", ["vital signs", "symptom progression"],
        "until improvement", none⟩ ∧
      p.follow_up = ⟨"routine", ["Follow up with primary care provider"], none⟩ ∧
      p.discharge_criteria = ["Stable vital signs", "Improved symptoms",
        "Adequate oral intake"] ∧
      p.monitoring.frequency ≠ "" ∧ p.monitoring.duration ≠ "" ∧
      p.monitoring.parameters ≠ [] ∧ p.follow_up.timeline ≠ "" ∧
      p.follow_up.instructions ≠ [] ∧ p.discharge_criteria ≠ [] :=
  no_guideline_generic_defaults condStore [] "croup" "mild" ⟨false, some 3, some 14, []⟩
    none croupData (Or.inl rfl) rfl (by decide) rfl rfl
    (fun g hgm => absurd hgm (by simp))

/-! ## C2 — condition matcher scoring -/

/-- Score formula as the claim states it: two points per patient symptom
that case-insensitively substring-matches some primary symptom, three if
the display name appears case-insensitively as a substring of the
assessment text, one if an age is provided and the entry lists the
applicable age group (`pediatric` below 18, `adult` from 18). -/
def claimScore (symptoms : List String) (assessment : String) (patient_age : Option ℤ)
    (cd : ConditionData) : ℕ :=
  2 * symptoms.countP (fun s => symptomHit cd s) +
    (if strContains (pyLower assessment) (pyLower (cd.name.getD "")) then 3 else 0) +
    (match patient_age with
     | none => 0
     | some a =>
       if (cd.age_groups.getD []).contains (if a < 18 then "pediatric" else "adult") then 1
       else 0)

/-- The match list as the claim describes it: the positively-scoring
conditions in store order, each with its claim score and its matched
symptoms. -/
def claimMatches (conditions : Store) (symptoms : List String) (assessment : String)
    (patient_age : Option ℤ) : List CondMatch :=
  (conditions.filter fun e =>
      decide (0 < claimScore symptoms assessment patient_age e.2)).map
    fun e => ⟨e.1, e.2.name.getD e.1, claimScore symptoms assessment patient_age e.2,
      symptoms.filter fun s => symptomHit e.2 s⟩

theorem symptomLoop_spec (cd : ConditionData) (symptoms : List String) :
    symptomLoop cd symptoms =
      (2 * symptoms.countP (fun s => symptomHit cd s),
        symptoms.filter fun s => symptomHit cd s) := by
  suffices h : ∀ acc : ℕ × List String,
      symptoms.foldl (fun acc s => if symptomHit cd s then (acc.1 + 2, acc.2 ++ [s]) else acc)
        acc =
      (acc.1 + 2 * symptoms.countP (fun s => symptomHit cd s),
        acc.2 ++ symptoms.filter fun s => symptomHit cd s) by
    simpa [symptomLoop] using h (0, [])
  induction symptoms with
  | nil => intro acc; simp
  | cons s t ih =>
    intro acc
    cases hs : symptomHit cd s with
    | true =>
      simp only [List.foldl_cons, hs, if_true, ih, List.countP_cons, List.filter_cons,
        Prod.mk.injEq]
      constructor
      · omega
      · simp
    | false =>
      simp only [List.foldl_cons, hs, Bool.false_eq_true, if_false, ih, List.countP_cons,
        List.filter_cons, Prod.mk.injEq]
      constructor
      · omega
      · simp

theorem strContains_empty_hay {n : String} (h : n.data ≠ []) : strContains "" n = false := by
  unfold strContains
  cases hn : n.data with
  | nil => exact absurd hn h
  | cons c cs => simp [searchPos, List.isPrefixOf, hn]

theorem pyLower_data (s : String) : (pyLower s).data = s.data.map Char.toLower := rfl

theorem data_ne_nil_of_ne_empty {s : String} (h : s ≠ "") : s.data ≠ [] := by
  intro hd
  exact h (String.ext (hd.trans rfl))

theorem assessBonus_eq (assessment : String) (cd : ConditionData)
    (hname : cd.name.getD "" ≠ "") :
    assessBonus assessment cd =
      (if strContains (pyLower assessment) (pyLower (cd.name.getD "")) then 3 else 0) := by
  unfold assessBonus
  by_cases ha : assessment = ""
  · subst ha
    have hfalse : strContains (pyLower "") (pyLower (cd.name.getD "")) = false := by
      have : (pyLower (cd.name.getD "")).data ≠ [] := by
        rw [pyLower_data]
        simp [data_ne_nil_of_ne_empty hname]
      exact strContains_empty_hay this
    simp [hfalse]
  · simp [ha]

theorem ageBonus_eq (patient_age : Option ℤ) (cd : ConditionData) :
    ageBonus patient_age cd =
      (match patient_age with
       | none => 0
       | some a =>
         if (cd.age_groups.getD []).contains (if a < 18 then "pediatric" else "adult") then 1
         else 0) := by
  unfold ageBonus
  cases patient_age with
  | none => rfl
  | some a =>
    cases hg : cd.age_groups with
    | none => simp
    | some gs =>
      by_cases h18 : a < 18
      · by_cases hp : "pediatric" ∈ gs
        · simp [hp, h18]
        · simp [hp, h18, not_le.mpr h18]
      · by_cases hp : "adult" ∈ gs
        · simp [hp, h18, not_lt.mp h18]
        · simp [hp, h18]

theorem condScore_eq_claimScore (symptoms : List String) (assessment : String)
    (patient_age : Option ℤ) (cd : ConditionData) (hname : cd.name.getD "" ≠ "") :
    condScore symptoms assessment patient_age cd =
      claimScore symptoms assessment patient_age cd := by
  unfold condScore claimScore
  rw [symptomLoop_spec, assessBonus_eq _ _ hname, ageBonus_eq]

theorem mkMatch_eq (symptoms : List String) (assessment : String)
    (patient_age : Option ℤ) (cid : String) (cd : ConditionData)
    (hname : cd.name.getD "" ≠ "") :
    mkMatch symptoms assessment patient_age cid cd =
      ⟨cid, cd.name.getD cid, claimScore symptoms assessment patient_age cd,
        symptoms.filter fun s => symptomHit cd s⟩ := by
  unfold mkMatch
  rw [condScore_eq_claimScore _ _ _ _ hname, symptomLoop_spec]

theorem matchesRaw_eq (conditions : Store) (symptoms : List String) (assessment : String)
    (patient_age : Option ℤ)
    (hnames : ∀ e ∈ conditions, e.2.name.getD "" ≠ "") :
    (conditions.filterMap fun e =>
      if 0 < condScore symptoms assessment patient_age e.2 then
        some (mkMatch symptoms assessment patient_age e.1 e.2)
      else none) =
    claimMatches conditions symptoms assessment patient_age := by
  induction conditions with
  | nil => rfl
  | cons e t ih =>
    have he : e.2.name.getD "" ≠ "" := hnames e (List.mem_cons_self e t)
    have ht := ih fun x hx => hnames x (List.mem_cons_of_mem e hx)
    unfold claimMatches at ht ⊢
    simp only [List.filterMap_cons, List.filter_cons]
    rw [condScore_eq_claimScore _ _ _ _ he]
    by_cases hpos : 0 < claimScore symptoms assessment patient_age e.2
    · simp only [if_pos hpos, decide_eq_true_eq, hpos, if_true, List.map_cons]
      rw [mkMatch_eq _ _ _ _ _ he, ht]
    · simp only [if_neg hpos, decide_eq_true_eq, hpos, if_false, ht]

/-- C2: for a store whose entries carry non-empty display names, the
matcher succeeds, its match list is a permutation of the positively
scoring conditions each bearing the claim's score formula (conditions
scoring zero excluded), it is sorted descending by score, and the top
match is its first element (absent when nothing scored). -/
theorem identify_condition_scoring
    (conditions : Store) (symptoms : List String) (assessment : String)
    (patient_age : Option ℤ)
    (hin : ¬(symptoms = [] ∧ assessment = ""))
    (hage : ∀ a : ℤ, patient_age = some a → 0 ≤ a ∧ a ≤ 150)
    (hne : conditions ≠ [])
    (hnames : ∀ e ∈ conditions, e.2.name.getD "" ≠ "") :
    ∃ res, identify_condition conditions symptoms assessment patient_age = .ok res ∧
      res.match_list.Perm (claimMatches conditions symptoms assessment patient_age) ∧
      res.match_list.Sorted (fun a b => b.confidence_score ≤ a.confidence_score) ∧
      res.top_match = res.match_list.head? := by
  have hagechk : ageCheckFails patient_age = false := by
    cases patient_age with
    | none => rfl
    | some a =>
      obtain ⟨ha1, ha2⟩ := hage a rfl
      simp only [ageCheckFails, Bool.or_eq_false_iff, decide_eq_false_iff_not, not_lt]
      omega
  unfold identify_condition
  rw [if_neg hin, hagechk]
  simp only [Bool.false_eq_true, if_false, if_neg hne]
  refine ⟨_, rfl, ?_, ?_, rfl⟩
  · rw [← matchesRaw_eq conditions symptoms assessment patient_age hnames]
    exact List.perm_insertionSort matchOrder _
  · exact List.sorted_insertionSort matchOrder _

/-- Witness for C2: the croup store at the spec's scenario — two matching
symptoms, the name in the assessment, pediatric age — scores 2·2+3+1 = 8. -/
theorem identify_condition_scoring_witness :
    ∃ res, identify_condition condStore ["barky cough", "stridor"] "moderate croup"
        (some 3) = .ok res ∧
      res.match_list.Perm (claimMatches condStore ["barky cough", "stridor"]
        "moderate croup" (some 3)) ∧
      res.match_list.Sorted (fun a b => b.confidence_score ≤ a.confidence_score) ∧
      res.top_match = res.match_list.head? := by
  refine identify_condition_scoring condStore ["barky cough", "stridor"] "moderate croup"
    (some 3) (by simp) ?_ (by simp [condStore]) ?_
  · intro a ha
    injection ha with ha
    subst ha
    exact ⟨by norm_num, by norm_num⟩
  · intro e he
    have : e = ("croup", croupData) := by simpa [condStore] using he
    subst this
    decide

/-! ## Parser claims — common reductions of `parse` -/

/-- When the extracted demographics pass the validators, `parse` returns
the fully assembled note. -/
theorem parse_ok_of_valid (text : String)
    (ha : ageInvalid (extract_age text) = false)
    (hw : weightInvalid (extract_weight text) = false) :
    parse text = ⟨true,
      some ⟨⟨extract_age text, extract_weight text, extract_height text, extract_dob text,
        extract_gender text⟩, extract_symptoms text,
        ((extract_sections text).assessment).getD "", extract_vital_signs text,
        (extract_sections text).presenting_complaint, (extract_sections text).history,
        (extract_sections text).examination, (extract_sections text).plan⟩,
      [], text⟩ := by
  simp only [parse, extract_demographics, mkPatientData, ha, hw, Bool.false_eq_true,
    if_false]

/-- When a validator rejects, `parse` yields the failure result. -/
theorem parse_fail_of_invalid (text : String)
    (h : ¬(ageInvalid (extract_age text) = false ∧
      weightInvalid (extract_weight text) = false)) :
    (parse text).success = false ∧ (parse text).data = none := by
  by_cases ha : ageInvalid (extract_age text) = true
  · simp [parse, extract_demographics, mkPatientData, ha]
  · have ha2 : ageInvalid (extract_age text) = false := by simpa using ha
    have hw : weightInvalid (extract_weight text) = true := by
      rcases Bool.eq_false_or_eq_true (weightInvalid (extract_weight text)) with ht | hf
      · exact ht
      · exact absurd ⟨ha2, hf⟩ h
    simp [parse, extract_demographics, mkPatientData, ha2, hw]

/-! ## C4 — out-of-range demographics -/

/-- C4 counterexample: `"Age: 200 years"` parses an age of 200 (outside
0–150), and the extraction returns no `PatientRecord` at all
(`success = False`, `data = None`) rather than a record with the age
absent and the other fields unaffected. -/
theorem age_out_of_range_parse_fails_cex :
    extract_age "Age: 200 years" = some 200 ∧
    (parse "Age: 200 years").success = false ∧
    (parse "Age: 200 years").data = none :=
  ⟨rfl, by decide, by decide⟩

/-- C4 amended: a recognized age outside 0–150 or weight outside
0.5–500 causes the whole extraction to fail — `parse` returns
`success = False` with no record (neither storing nor clamping the
value), instead of a record with that field absent. -/
theorem out_of_range_demographics_fail_parse (text : String)
    (h : (∃ a : ℤ, extract_age text = some a ∧ (a < 0 ∨ 150 < a)) ∨
      (∃ w : ℚ, extract_weight text = some w ∧ (w < 1 / 2 ∨ 500 < w))) :
    (parse text).success = false ∧ (parse text).data = none := by
  apply parse_fail_of_invalid
  rintro ⟨ha, hw⟩
  have hdiv : Rat.divInt 1 2 = (1 : ℚ) / 2 := by
    rw [Rat.divInt_eq_div]
    norm_num
  rcases h with ⟨a, hval, hrange⟩ | ⟨w, hval, hrange⟩
  · rw [hval] at ha
    simp only [ageInvalid, Bool.or_eq_false_iff, decide_eq_false_iff_not, not_lt] at ha
    omega
  · rw [hval] at hw
    simp only [weightInvalid, hdiv, Bool.or_eq_false_iff, decide_eq_false_iff_not,
      not_lt] at hw
    rcases hrange with hr | hr
    · exact absurd hw.1 (not_le.mpr hr)
    · exact absurd hw.2 (not_le.mpr hr)

/-- Witness for the amended C4, exercising the weight branch. -/
theorem out_of_range_demographics_fail_parse_witness :
    (parse "Wt: 600 kg").success = false ∧ (parse "Wt: 600 kg").data = none :=
  out_of_range_demographics_fail_parse "Wt: 600 kg"
    (Or.inr ⟨Rat.divInt 600 1, rfl, Or.inr (by decide)⟩)

/-! ## C5 — extraction never raises -/

/-- C5 counterexample: for the input `"Weight: 0.3 kg"` (a recognized
weight below the 0.5 kg invariant), extraction produces an error result
(`success = False`, no `PatientRecord`), not a successfully produced
record with unmatched fields absent. -/
theorem parse_error_result_cex :
    (parse "Weight: 0.3 kg").success = false ∧ (parse "Weight: 0.3 kg").data = none := by
  constructor
  · decide
  · decide

/-- C5 amended: `parse` is total (the catch-all handler turns the only
raising step — demographic validation — into a failure result, so no
input raises), and whenever the extracted numeric demographics are in
range — in particular whenever no age or weight was recognized — it
returns success with every field equal to its recognizer's output, absent
fields included. -/
theorem parse_never_raises_unmatched_absent (text : String)
    (hage : ∀ a : ℤ, extract_age text = some a → 0 ≤ a ∧ a ≤ 150)
    (hw : ∀ w : ℚ, extract_weight text = some w → 1 / 2 ≤ w ∧ w ≤ 500) :
    (parse text).success = true ∧
    (parse text).data = some ⟨⟨extract_age text, extract_weight text, extract_height text,
      extract_dob text, extract_gender text⟩, extract_symptoms text,
      ((extract_sections text).assessment).getD "", extract_vital_signs text,
      (extract_sections text).presenting_complaint, (extract_sections text).history,
      (extract_sections text).examination, (extract_sections text).plan⟩ := by
  have hdiv : Rat.divInt 1 2 = (1 : ℚ) / 2 := by
    rw [Rat.divInt_eq_div]
    norm_num
  have ha : ageInvalid (extract_age text) = false := by
    cases hA : extract_age text with
    | none => rfl
    | some a =>
      obtain ⟨h1, h2⟩ := hage a hA
      simp only [ageInvalid, Bool.or_eq_false_iff, decide_eq_false_iff_not, not_lt]
      omega
  have hwv : weightInvalid (extract_weight text) = false := by
    cases hW : extract_weight text with
    | none => rfl
    | some w =>
      obtain ⟨h1, h2⟩ := hw w hW
      simp only [weightInvalid, hdiv, Bool.or_eq_false_iff, decide_eq_false_iff_not,
        not_lt]
      exact ⟨h1, h2⟩
  rw [parse_ok_of_valid text ha hwv]
  exact ⟨rfl, rfl⟩

/-- Witness for the amended C5 at the empty note: success, with every
field absent. -/
theorem parse_never_raises_witness :
    (parse "").success = true ∧
    (parse "").data = some ⟨⟨none, none, none, none, none⟩, [], "",
      ⟨none, none, none, none, none⟩, none, none, none, none⟩ :=
  parse_never_raises_unmatched_absent ""
    (fun _ h => Option.noConfusion h)
    (fun _ h => Option.noConfusion h)

/-! ## C6 — unmatched sections -/

/-- C6 counterexample: with no headings in the text, the section
extraction has no assessment match, yet the extraction result carries the
assessment as the empty string — present, not absent (unlike the four
optional sections). -/
theorem assessment_empty_string_cex :
    (extract_sections "no headings here").assessment = none ∧
    ((parse "no headings here").data.map fun n => n.assessment) = some "" := by
  constructor
  · rfl
  · decide

/-- C6 amended: in every successfully extracted note, the four optional
sections equal the section extractor's output — absent (`None`) whenever
their headings are unmatched — while the assessment field is filled with
the empty string instead of being absent when its heading is unmatched. -/
theorem optional_sections_absent_assessment_defaults (text : String) (note : ClinicalNote)
    (h : (parse text).data = some note) :
    note.presenting_complaint = (extract_sections text).presenting_complaint ∧
    note.history = (extract_sections text).history ∧
    note.examination = (extract_sections text).examination ∧
    note.plan = (extract_sections text).plan ∧
    note.assessment = ((extract_sections text).assessment).getD "" := by
  unfold parse at h
  cases hd : extract_demographics text with
  | error e =>
    rw [hd] at h
    exact absurd h (by simp)
  | ok pd =>
    rw [hd] at h
    simp only [Option.some.injEq] at h
    subst h
    exact ⟨rfl, rfl, rfl, rfl, rfl⟩

/-- Witness for the amended C6 at a heading-free input. -/
theorem optional_sections_absent_witness :
    (none : Option String) = (extract_sections "x").presenting_complaint ∧
    (none : Option String) = (extract_sections "x").history ∧
    (none : Option String) = (extract_sections "x").examination ∧
    (none : Option String) = (extract_sections "x").plan ∧
    "" = ((extract_sections "x").assessment).getD "" :=
  optional_sections_absent_assessment_defaults "x"
    ⟨⟨none, none, none, none, none⟩, [], "", ⟨none, none, none, none, none⟩,
      none, none, none, none⟩ (by decide)

end NoteParser
